import Mathlib

/-!
Verification of the tg-agent conversational relay (src/app.py).

The Python program is shallowly embedded here:
  * the in-memory dialogue map `dialogues` is an insertion-ordered
    association list from conversation id to turn list;
  * the PostgreSQL-backed configuration store is a `DBState` record holding
    the single `ai_prompt` row, the single `agent_settings` row and the
    `broadcast_log` table;
  * the Telethon / OpenAI clients are environments (`BEnv`, completion
    functions) passed as parameters; a raising call is an `Except.error`
    carrying the text of the exception (`str(e)`);
  * Python string truthiness (`x or y`) is modelled by `pyOrS` / `pyOrStr`,
    `str.strip` by `pyStrip`, `str.split(",")` by `pySplitComma`, and
    `int(s)` by `strToInt?`.
Effects are made observable: handlers return the updated state together
with the delivered reply (`Option`), and the broadcast run returns the
updated store, the list of attempted sends and the `(total, ok, fail)`
result.
-/

deriving instance DecidableEq for Except

/-- One chat turn, as placed in the `messages` list sent to the completion
service and in the per-chat history (`{"role": ..., "content": ...}`). -/
structure Msg where
  role : String
  content : String
deriving DecidableEq

/-- The process-wide `dialogues` dict (`chat_id -> [messages]`), modelled as
an insertion-ordered association list. -/
abbrev Dialogues := List (Int × List Msg)

/-- Python `d[k]` lookup (first binding wins; a dict has unique keys). -/
def dictGet (d : Dialogues) (k : Int) : Option (List Msg) :=
  match d with
  | [] => none
  | (k2, v) :: rest => if k2 = k then some v else dictGet rest k

/-- Python `d.setdefault(k, v)`: returns the (possibly extended) dict and
the value now stored under `k`. -/
def dictSetdefault (d : Dialogues) (k : Int) (v : List Msg) :
    Dialogues × List Msg :=
  match dictGet d k with
  | some h => (d, h)
  | none => (d ++ [(k, v)], v)

/-- Python `d[k] = v` (in-place list mutation through the alias returned by
`setdefault` amounts to rebinding the key). -/
def dictSet (d : Dialogues) (k : Int) (v : List Msg) : Dialogues :=
  match d with
  | [] => [(k, v)]
  | (k2, w) :: rest => if k2 = k then (k2, v) :: rest else (k2, w) :: dictSet rest k v

/-- The dialogue history of one conversation; a conversation that was never
seen has the empty history (the store creates entries lazily). -/
def histOf (d : Dialogues) (k : Int) : List Msg :=
  (dictGet d k).getD []

/-- Python `l[-n:]`: the last at-most-`n` elements, in order. -/
def pyTail (l : List Msg) (n : Nat) : List Msg :=
  l.drop (l.length - n)

/-- The dialogue-store window: the most recent at-most-`n` turns of one
conversation (`history[-10:]` in `ask_llm`). -/
def recentWindow (d : Dialogues) (k : Int) (n : Nat) : List Msg :=
  pyTail (histOf d k) n

/-- Python `a or b` for strings (empty string is falsy). -/
def pyOrS (a b : String) : String :=
  if a = "" then b else a

/-- Python `x or b` for `Optional[str]` (`None` and `""` are falsy). -/
def pyOrStr (x : Option String) (b : String) : String :=
  match x with
  | none => b
  | some s => pyOrS s b

/-- The ASCII whitespace stripped by Python `str.strip()`. -/
def pyIsSpace (c : Char) : Bool :=
  c = ' ' || c = '\t' || c = '\n' || c = '\r' || c = '\x0b' || c = '\x0c'

/-- Python `s.strip()`. -/
def pyStrip (s : String) : String :=
  String.mk (((s.data.dropWhile pyIsSpace).reverse.dropWhile pyIsSpace).reverse)

/-- Helper for `pySplitComma` (structural recursion over the characters). -/
def splitCommaAux : List Char → List Char → List String
  | [], acc => [String.mk acc.reverse]
  | c :: cs, acc =>
      if c = ',' then String.mk acc.reverse :: splitCommaAux cs []
      else splitCommaAux cs (c :: acc)

/-- Python `s.split(",")` (keeps empty pieces; `"".split(",") == [""]`). -/
def pySplitComma (s : String) : List String :=
  splitCommaAux s.data []

/-- Decimal digit-string value, `none` if empty or not all digits. -/
def decDigits? (cs : List Char) : Option Nat :=
  if cs = [] then none
  else if cs.all Char.isDigit then
    some (cs.foldl (fun a c => a * 10 + (c.toNat - 48)) 0)
  else none

/-- Python `int(s)` on a stripped token: optional sign followed by decimal
digits; `none` models the `ValueError` branch. -/
def strToInt? (s : String) : Option Int :=
  match s.data with
  | '-' :: rest => (decDigits? rest).map (fun n => -(n : Int))
  | '+' :: rest => (decDigits? rest).map (fun n => (n : Int))
  | cs => (decDigits? cs).map (fun n => (n : Int))

/-- The environment-derived module constants of `app.py` (empty string or 0
models an unset variable, matching Python truthiness checks). -/
structure EnvCfg where
  TG_API_ID : Nat
  TG_API_HASH : String
  TG_SESSION : String
  OPENAI_API_KEY : String
  TARGET_IDS_RAW : String
  START_MESSAGE : String
  SYSTEM_PROMPT : String
  DATABASE_URL : String
deriving DecidableEq

/-- One row of the `broadcast_log` table as written by `log_broadcast`. -/
structure LogRecord where
  chat_id : Int
  chat_type : String
  chat_name : String
  message : String
  success : Bool
  error : Option String
deriving DecidableEq

/-- The durable store: the first `ai_prompt` row (its `content`), the first
`agent_settings` row (`target_ids`, `start_message`, both nullable columns),
and the `broadcast_log` rows in insertion order. -/
structure DBState where
  ai_prompt_row : Option String
  agent_settings_row : Option (Option String × Option String)
  broadcast_log : List LogRecord
deriving DecidableEq

/-- `get_prompt_from_db`: `None` without a database or without a row,
otherwise the stored `content`. -/
def get_prompt_from_db (cfg : EnvCfg) (db : DBState) : Option String :=
  if cfg.DATABASE_URL = "" then none else db.ai_prompt_row

/-- The resolution `get_prompt_from_db() or SYSTEM_PROMPT` performed at
every read of the system instructions (`ask_llm`, `edit_prompt`). -/
def resolved_system_prompt (cfg : EnvCfg) (db : DBState) : String :=
  pyOrStr (get_prompt_from_db cfg db) cfg.SYSTEM_PROMPT

/-- `get_agent_settings`: `(target_ids, start_message)` from the settings
row (`row[i] or ""`), falling back to the env values when there is no
database or no row. -/
def get_agent_settings (cfg : EnvCfg) (db : DBState) : String × String :=
  if cfg.DATABASE_URL = "" then (cfg.TARGET_IDS_RAW, cfg.START_MESSAGE)
  else
    match db.agent_settings_row with
    | some (a, b) => (pyOrStr a "", pyOrStr b "")
    | none => (cfg.TARGET_IDS_RAW, cfg.START_MESSAGE)

/-- `set_prompt_in_db`: raises without a database, otherwise upserts the
single `ai_prompt` row. -/
def set_prompt_in_db (cfg : EnvCfg) (db : DBState) (text : String) :
    Except String DBState :=
  if cfg.DATABASE_URL = "" then
    Except.error "DATABASE_URL не задан, некуда сохранить тезисы."
  else Except.ok { db with ai_prompt_row := some text }

/-- The POST branch of the `/prompt` admin handler (`edit_prompt`): strip
the submitted text, store `text or SYSTEM_PROMPT`; the flag records whether
the save succeeded (the success flash) or was caught (the error flash). -/
def edit_prompt_post (cfg : EnvCfg) (db : DBState) (content : String) :
    DBState × Bool :=
  match set_prompt_in_db cfg db (pyOrS (pyStrip content) cfg.SYSTEM_PROMPT) with
  | Except.ok db2 => (db2, true)
  | Except.error _ => (db, false)

/-- `log_broadcast`: without a database the record is only warned about and
dropped; otherwise it is appended to `broadcast_log`. -/
def log_broadcast (cfg : EnvCfg) (db : DBState) (rec : LogRecord) : DBState :=
  if cfg.DATABASE_URL = "" then db
  else { db with broadcast_log := db.broadcast_log ++ [rec] }

/-- The loop body of `parse_target_ids`: strip the token, skip it if empty,
append the parsed id, or record a warning for an unparsable token. -/
def parseStep (acc : List Int × List String) (part : String) :
    List Int × List String :=
  let p := pyStrip part
  if p = "" then acc
  else
    match strToInt? p with
    | some n => (acc.1 ++ [n], acc.2)
    | none => (acc.1, acc.2 ++ [p])

/-- `parse_target_ids`: the parsed ids in order, paired with the stripped
tokens reported by `logger.warning` (one per unparsable token). -/
def parse_target_ids (raw : String) : List Int × List String :=
  (pySplitComma raw).foldl parseStep ([], [])

/-- `ask_llm`: resolve the system prompt, take the per-chat history
(created empty on first access), send system turn + last-10 window + new
user turn to the completion service `env`; only on success append the user
turn and then the assistant turn. Returns the updated dialogue map and the
reply or the raised error. -/
def ask_llm (env : List Msg → Except String String) (cfg : EnvCfg)
    (db : DBState) (dialogues : Dialogues) (chatId : Int) (userText : String) :
    Dialogues × Except String String :=
  if cfg.OPENAI_API_KEY = "" then
    (dialogues, Except.error "OpenAI клиент не инициализирован (нет OPENAI_API_KEY)")
  else
    let system_prompt := resolved_system_prompt cfg db
    let sd := dictSetdefault dialogues chatId []
    let history := sd.2
    let messages := { role := "system", content := system_prompt }
      :: (pyTail history 10 ++ [{ role := "user", content := userText }])
    match env messages with
    | Except.error e => (sd.1, Except.error e)
    | Except.ok reply =>
        (dictSet sd.1 chatId
          (history ++ [{ role := "user", content := userText },
                       { role := "assistant", content := reply }]),
         Except.ok reply)

/-- `on_new_message`: call `ask_llm` and respond with the reply; any
exception is caught and logged, so no reply is delivered (`none`). -/
def on_new_message (env : List Msg → Except String String) (cfg : EnvCfg)
    (db : DBState) (dialogues : Dialogues) (chatId : Int) (text : String) :
    Dialogues × Option String :=
  match ask_llm env cfg db dialogues chatId text with
  | (d, Except.ok reply) => (d, some reply)
  | (d, Except.error _) => (d, none)

/-- `K` successive message/reply cycles of one conversation against a
completion service `g` that always succeeds. -/
def run_cycles (g : List Msg → String) (cfg : EnvCfg) (db : DBState)
    (d : Dialogues) (chatId : Int) (texts : List String) : Dialogues :=
  texts.foldl
    (fun d t => (on_new_message (fun ms => Except.ok (g ms)) cfg db d chatId t).1)
    d

/-- The turns appended by successive successful cycles: per cycle the user
turn and then the assistant turn, in that order. -/
def interleave : List String → List String → List Msg
  | t :: ts, r :: rs =>
      { role := "user", content := t } :: { role := "assistant", content := r }
        :: interleave ts rs
  | _, _ => []

/-- The attributes of a Telethon entity read by the broadcast loop
(`getattr` with defaults: a missing `title` is `None`, a missing
`first_name` is `""`, missing flags are `False`). -/
structure Entity where
  title : Option String
  first_name : String
  megagroup : Bool
  gigagroup : Bool
  broadcast : Bool
deriving DecidableEq

/-- The messaging gateway used by the broadcast run: entity lookup and
outbound send, each possibly raising with an exception text. -/
structure BEnv where
  get_entity : Int → Except String Entity
  send_message : Int → String → Except String Unit

/-- One iteration of the broadcast loop (one target): the send calls
attempted, the `broadcast_log` record, and the success flag. A raise
anywhere in the `try` body jumps to the `except` branch, which logs
`chat_type or "unknown"` and `chat_name or ""` with the values assigned at
raise time (`""`/`""` when `get_entity` itself raised). -/
def process_target (env : BEnv) (startMsg : String) (chatId : Int) :
    List (Int × String) × LogRecord × Bool :=
  match env.get_entity chatId with
  | Except.error e =>
      ([],
       { chat_id := chatId, chat_type := pyOrS "" "unknown",
         chat_name := pyOrS "" "", message := startMsg,
         success := false, error := some e },
       false)
  | Except.ok entity =>
      let chat_name := pyOrS (pyOrStr entity.title entity.first_name) "(без названия)"
      let chat_type :=
        if entity.megagroup || entity.gigagroup then "group"
        else if entity.broadcast then "channel"
        else "user"
      match env.send_message chatId startMsg with
      | Except.ok _ =>
          ([(chatId, startMsg)],
           { chat_id := chatId, chat_type := chat_type, chat_name := chat_name,
             message := startMsg, success := true, error := none },
           true)
      | Except.error e =>
          ([(chatId, startMsg)],
           { chat_id := chatId, chat_type := pyOrS chat_type "unknown",
             chat_name := pyOrS chat_name "", message := startMsg,
             success := false, error := some e },
           false)

/-- The accumulator step of the broadcast loop: update the ok/fail
counters, write the log record, and collect the attempted sends. -/
def bstep (cfg : EnvCfg) (env : BEnv) (smsg : String)
    (acc : Nat × Nat × DBState × List (Int × String)) (chatId : Int) :
    Nat × Nat × DBState × List (Int × String) :=
  match acc, process_target env smsg chatId with
  | (ok, fail, db, sends), (s, rec, true) =>
      (ok + 1, fail, log_broadcast cfg db rec, sends ++ s)
  | (ok, fail, db, sends), (s, rec, false) =>
      (ok, fail + 1, log_broadcast cfg db rec, sends ++ s)

/-- The start message a broadcast run resolves (`get_agent_settings`). -/
def resolvedStartMsg (cfg : EnvCfg) (db : DBState) : String :=
  (get_agent_settings cfg db).2

/-- The target list a broadcast run resolves and parses. -/
def resolvedIds (cfg : EnvCfg) (db : DBState) : List Int :=
  (parse_target_ids (get_agent_settings cfg db).1).1

/-- `run_broadcast_now`: refuse without Telegram credentials, resolve the
settings, fail fast on an empty start message or an empty parsed target
list, otherwise walk the targets in order. Returns the updated store, the
attempted sends, and `(total, ok, fail)` or the raised error. -/
def run_broadcast_now (cfg : EnvCfg) (db : DBState) (env : BEnv) :
    DBState × List (Int × String) × Except String (Nat × Nat × Nat) :=
  if cfg.TG_API_ID = 0 ∨ cfg.TG_API_HASH = "" ∨ cfg.TG_SESSION = "" then
    (db, [], Except.error "Нет Telegram-кредов, рассылка невозможна.")
  else
    let ts := get_agent_settings cfg db
    let ids := (parse_target_ids ts.1).1
    if ts.2 = "" then
      (db, [], Except.error "START_MESSAGE пустой — нечего рассылать.")
    else if ids = [] then
      (db, [], Except.error "TARGET_IDS пустой — не указано, кому слать.")
    else
      let total := ids.length
      let r := ids.foldl (bstep cfg env ts.2) (0, 0, db, [])
      (r.2.2.1, r.2.2.2, Except.ok (total, r.1, r.2.1))

/-- The targets a run marks successful. -/
def succCount (env : BEnv) (smsg : String) (ids : List Int) : Nat :=
  ids.countP (fun i => (process_target env smsg i).2.2)

/-- The targets a run marks failed. -/
def failCount (env : BEnv) (smsg : String) (ids : List Int) : Nat :=
  ids.countP (fun i => !(process_target env smsg i).2.2)

/-- The log record a run appends for one target. -/
def targetRecord (env : BEnv) (smsg : String) (i : Int) : LogRecord :=
  (process_target env smsg i).2.1

/-- A record is well-formed for the failure-detail property: successful, or
carrying a non-empty error text. -/
def recErrOk (r : LogRecord) : Bool :=
  r.success ||
    (match r.error with
     | some e => e != ""
     | none => false)

/-- `REQUIRED_OK = all([TG_API_ID, TG_API_HASH, TG_SESSION, OPENAI_API_KEY])`
under Python truthiness. -/
def REQUIRED_OK (cfg : EnvCfg) : Bool :=
  (cfg.TG_API_ID != 0) && (cfg.TG_API_HASH != "") && (cfg.TG_SESSION != "")
    && (cfg.OPENAI_API_KEY != "")

/-- The worker entry point `main` of `app.py` (renamed here because `main`
is reserved): raises a fixed message when a mandatory credential is
missing, raises when the Telegram client was not built, and otherwise
begins serving (`Except.ok ()`). -/
def app_main (cfg : EnvCfg) : Except String Unit :=
  if REQUIRED_OK cfg = false then
    Except.error "Не заданы TG_API_ID, TG_API_HASH, TG_SESSION или OPENAI_API_KEY. Заполни их в переменных окружения (локально или на Heroku)."
  else if cfg.TG_API_ID = 0 ∨ cfg.TG_API_HASH = "" ∨ cfg.TG_SESSION = "" then
    Except.error "TelegramClient не инициализирован (проверь TG_* переменные)."
  else Except.ok ()

/-! ## Dialogue-store lemmas -/

lemma dictGet_append_of_none {d : Dialogues} {k : Int}
    (h : dictGet d k = none) (l : Dialogues) :
    dictGet (d ++ l) k = dictGet l k := by
  induction d with
  | nil => simp
  | cons p rest ih =>
      obtain ⟨k2, v⟩ := p
      by_cases hk : k2 = k
      · simp [dictGet, hk] at h
      · simp only [dictGet, hk, if_neg hk, List.cons_append] at h ⊢
        exact ih h

lemma dictSetdefault_snd (d : Dialogues) (k : Int) :
    (dictSetdefault d k []).2 = histOf d k := by
  unfold dictSetdefault histOf
  cases h : dictGet d k <;> simp [h]

lemma histOf_dictSetdefault (d : Dialogues) (k : Int) :
    histOf (dictSetdefault d k []).1 k = histOf d k := by
  unfold dictSetdefault
  cases h : dictGet d k with
  | none =>
      simp only [histOf, h]
      rw [dictGet_append_of_none h]
      simp [dictGet]
  | some v => simp [histOf, h]

lemma dictGet_dictSet (d : Dialogues) (k : Int) (v : List Msg) :
    dictGet (dictSet d k v) k = some v := by
  induction d with
  | nil => simp [dictSet, dictGet]
  | cons p rest ih =>
      obtain ⟨k2, w⟩ := p
      by_cases hk : k2 = k
      · simp [dictSet, dictGet, hk]
      · simp [dictSet, dictGet, hk, ih]

/-- C1 — If the completion service raises, the handler catches the
exception after the completion call: no reply is responded and the turns of
that conversation are unchanged (only the lazy empty entry may have been
created, which leaves the history, and in particular its length,
unchanged). -/
theorem claim_C1_completion_failure_leaves_history
    (env : List Msg → Except String String) (cfg : EnvCfg) (db : DBState)
    (dialogues : Dialogues) (chatId : Int) (text : String) (e : String)
    (h : ∀ ms, env ms = Except.error e) :
    (on_new_message env cfg db dialogues chatId text).2 = none ∧
    histOf (on_new_message env cfg db dialogues chatId text).1 chatId
      = histOf dialogues chatId := by
  unfold on_new_message ask_llm
  by_cases hk : cfg.OPENAI_API_KEY = ""
  · simp [hk]
  · simp only [hk, if_neg hk, h]
    exact ⟨rfl, histOf_dictSetdefault dialogues chatId⟩

/-- Witness for C1 at a concrete failing completion service. -/
theorem claim_C1_witness :
    (on_new_message (fun _ => Except.error "boom")
      { TG_API_ID := 1, TG_API_HASH := "h", TG_SESSION := "s",
        OPENAI_API_KEY := "k", TARGET_IDS_RAW := "", START_MESSAGE := "",
        SYSTEM_PROMPT := "P", DATABASE_URL := "" }
      { ai_prompt_row := none, agent_settings_row := none, broadcast_log := [] }
      [(7, [{ role := "user", content := "old" }])] 7 "hi").2 = none ∧
    histOf (on_new_message (fun _ => Except.error "boom")
      { TG_API_ID := 1, TG_API_HASH := "h", TG_SESSION := "s",
        OPENAI_API_KEY := "k", TARGET_IDS_RAW := "", START_MESSAGE := "",
        SYSTEM_PROMPT := "P", DATABASE_URL := "" }
      { ai_prompt_row := none, agent_settings_row := none, broadcast_log := [] }
      [(7, [{ role := "user", content := "old" }])] 7 "hi").1 7
      = histOf [(7, [{ role := "user", content := "old" }])] 7 :=
  claim_C1_completion_failure_leaves_history _ _ _ _ _ _ "boom" (fun _ => rfl)

/-- C3 — The turn sequence handed to the completion service is exactly the
system turn with the currently resolved instructions, then the last
at-most-10 stored turns of the conversation in order (a suffix of the
stored history), then the new user turn: for an arbitrary observer `f` of
the sent sequence, the reply is `f` applied to exactly that sequence. -/
theorem claim_C3_messages_sent
    (cfg : EnvCfg) (db : DBState) (dialogues : Dialogues) (chatId : Int)
    (text : String) (f : List Msg → String)
    (hkey : cfg.OPENAI_API_KEY ≠ "") :
    (ask_llm (fun ms => Except.ok (f ms)) cfg db dialogues chatId text).2
      = Except.ok (f ({ role := "system", content := resolved_system_prompt cfg db }
          :: (pyTail (histOf dialogues chatId) 10
              ++ [{ role := "user", content := text }]))) ∧
    (pyTail (histOf dialogues chatId) 10).length
      = min 10 (histOf dialogues chatId).length ∧
    pyTail (histOf dialogues chatId) 10 <:+ histOf dialogues chatId := by
  refine ⟨?_, ?_, ?_⟩
  · unfold ask_llm
    simp [hkey, dictSetdefault_snd]
  · simp only [pyTail, List.length_drop]
    omega
  · exact List.drop_suffix _ _

/-- Witness for C3 at a concrete configuration and observer. -/
theorem claim_C3_witness :
    (ask_llm (fun ms => Except.ok (if ms.length = 2 then "two" else "many"))
      { TG_API_ID := 1, TG_API_HASH := "h", TG_SESSION := "s",
        OPENAI_API_KEY := "k", TARGET_IDS_RAW := "", START_MESSAGE := "",
        SYSTEM_PROMPT := "P", DATABASE_URL := "" }
      { ai_prompt_row := none, agent_settings_row := none, broadcast_log := [] }
      [] 0 "hi").2
      = Except.ok ((fun ms : List Msg => if ms.length = 2 then "two" else "many")
          ({ role := "system",
             content := resolved_system_prompt
               { TG_API_ID := 1, TG_API_HASH := "h", TG_SESSION := "s",
                 OPENAI_API_KEY := "k", TARGET_IDS_RAW := "", START_MESSAGE := "",
                 SYSTEM_PROMPT := "P", DATABASE_URL := "" }
               { ai_prompt_row := none, agent_settings_row := none,
                 broadcast_log := [] } }
            :: (pyTail (histOf [] 0) 10 ++ [{ role := "user", content := "hi" }]))) ∧
    (pyTail (histOf [] 0) 10).length = min 10 (histOf ([] : Dialogues) 0).length ∧
    pyTail (histOf [] 0) 10 <:+ histOf ([] : Dialogues) 0 :=
  claim_C3_messages_sent _ _ [] 0 "hi" _ (by decide)

/-! ## Successful message/reply cycles (C4) -/

lemma interleave_length :
    ∀ (ts rs : List String), rs.length = ts.length →
      (interleave ts rs).length = 2 * ts.length := by
  intro ts
  induction ts with
  | nil => intro rs _; cases rs <;> simp [interleave]
  | cons t ts ih =>
      intro rs h
      cases rs with
      | nil => simp at h
      | cons r rs =>
          simp only [List.length_cons, Nat.succ.injEq] at h
          simp [interleave, ih rs h]
          omega

lemma cycle_hist (g : List Msg → String) (cfg : EnvCfg) (db : DBState)
    (hkey : cfg.OPENAI_API_KEY ≠ "") (d : Dialogues) (chatId : Int)
    (t : String) :
    ∃ r, histOf (on_new_message (fun ms => Except.ok (g ms)) cfg db d chatId t).1 chatId
        = histOf d chatId
            ++ [{ role := "user", content := t }, { role := "assistant", content := r }] := by
  refine ⟨g ({ role := "system", content := resolved_system_prompt cfg db }
      :: (pyTail (dictSetdefault d chatId []).2 10
          ++ [{ role := "user", content := t }])), ?_⟩
  unfold on_new_message ask_llm
  simp only [hkey, if_neg hkey]
  simp [histOf, dictGet_dictSet, dictSetdefault_snd]

lemma run_cycles_hist (g : List Msg → String) (cfg : EnvCfg) (db : DBState)
    (hkey : cfg.OPENAI_API_KEY ≠ "") (chatId : Int) :
    ∀ (texts : List String) (d : Dialogues),
      ∃ rs : List String, rs.length = texts.length ∧
        histOf (run_cycles g cfg db d chatId texts) chatId
          = histOf d chatId ++ interleave texts rs := by
  intro texts
  induction texts with
  | nil => intro d; exact ⟨[], rfl, by simp [run_cycles, interleave]⟩
  | cons t ts ih =>
      intro d
      obtain ⟨r, hr⟩ := cycle_hist g cfg db hkey d chatId t
      obtain ⟨rs, hlen, hh⟩ :=
        ih (on_new_message (fun ms => Except.ok (g ms)) cfg db d chatId t).1
      refine ⟨r :: rs, by simp [hlen], ?_⟩
      have : run_cycles g cfg db d chatId (t :: ts)
          = run_cycles g cfg db
              (on_new_message (fun ms => Except.ok (g ms)) cfg db d chatId t).1
              chatId ts := rfl
      rw [this, hh, hr, interleave]
      simp

/-- C4 — Starting from a fresh conversation, each successful cycle appends
the user turn and then the assistant turn, so after the K cycles the
history is the user/assistant interleaving of the K inbound texts with K
replies (2K turns), and the last-10 window is exactly the last 10 of those
2K turns in their original relative order. -/
theorem claim_C4_cycles_window
    (g : List Msg → String) (cfg : EnvCfg) (db : DBState) (chatId : Int)
    (texts : List String) (hkey : cfg.OPENAI_API_KEY ≠ "") :
    ∃ rs : List String, rs.length = texts.length ∧
      histOf (run_cycles g cfg db [] chatId texts) chatId = interleave texts rs ∧
      (interleave texts rs).length = 2 * texts.length ∧
      recentWindow (run_cycles g cfg db [] chatId texts) chatId 10
        = (interleave texts rs).drop (2 * texts.length - 10) := by
  obtain ⟨rs, hlen, hh⟩ := run_cycles_hist g cfg db hkey chatId texts []
  have h0 : histOf ([] : Dialogues) chatId = [] := rfl
  rw [h0] at hh
  simp only [List.nil_append] at hh
  have hil := interleave_length texts rs hlen
  refine ⟨rs, hlen, hh, hil, ?_⟩
  rw [recentWindow, hh, pyTail, hil]

/-- Witness for C4: two cycles with a constant completion service. -/
theorem claim_C4_witness :
    ∃ rs : List String, rs.length = (["hi", "again"] : List String).length ∧
      histOf (run_cycles (fun _ => "ok")
        { TG_API_ID := 1, TG_API_HASH := "h", TG_SESSION := "s",
          OPENAI_API_KEY := "k", TARGET_IDS_RAW := "", START_MESSAGE := "",
          SYSTEM_PROMPT := "P", DATABASE_URL := "" }
        { ai_prompt_row := none, agent_settings_row := none, broadcast_log := [] }
        [] 0 ["hi", "again"]) 0 = interleave ["hi", "again"] rs ∧
      (interleave ["hi", "again"] rs).length = 2 * (["hi", "again"] : List String).length ∧
      recentWindow (run_cycles (fun _ => "ok")
        { TG_API_ID := 1, TG_API_HASH := "h", TG_SESSION := "s",
          OPENAI_API_KEY := "k", TARGET_IDS_RAW := "", START_MESSAGE := "",
          SYSTEM_PROMPT := "P", DATABASE_URL := "" }
        { ai_prompt_row := none, agent_settings_row := none, broadcast_log := [] }
        [] 0 ["hi", "again"]) 0 10
        = (interleave ["hi", "again"] rs).drop (2 * (["hi", "again"] : List String).length - 10) :=
  claim_C4_cycles_window (fun _ => "ok") _ _ 0 ["hi", "again"] (by decide)

/-! ## Target-list parsing (C7) -/

lemma strToInt_empty : strToInt? "" = none := rfl

lemma parse_foldl (parts : List String) :
    ∀ acc : List Int × List String,
      parts.foldl parseStep acc
        = (acc.1 ++ ((parts.map pyStrip).filterMap strToInt?),
           acc.2 ++ ((parts.map pyStrip).filter
              (fun p => (p != "") && (strToInt? p).isNone))) := by
  induction parts with
  | nil => intro acc; simp
  | cons a parts ih =>
      intro acc
      simp only [List.foldl_cons, List.map_cons, List.filterMap_cons, List.filter_cons]
      by_cases hp : pyStrip a = ""
      · rw [parseStep, hp]
        simp [ih, strToInt_empty, hp]
      · rw [parseStep]
        simp only [hp, if_neg hp]
        cases hi : strToInt? (pyStrip a) with
        | some n => simp [ih, hi, hp]
        | none => simp [ih, hi, hp]

/-- C7 — Target-list parsing: every comma-separated token is stripped;
empty tokens are skipped silently; tokens that do not parse as an integer
are dropped, each producing one warning, and never abort the rest of the
parse; the valid tokens survive in order. In particular `"1,2, ,abc,3"`
parses to `[1,2,3]` with the single warning `"abc"`. -/
theorem claim_C7_parse_target_ids :
    (∀ raw : String,
        (parse_target_ids raw).1
          = ((pySplitComma raw).map pyStrip).filterMap strToInt? ∧
        (parse_target_ids raw).2
          = ((pySplitComma raw).map pyStrip).filter
              (fun p => (p != "") && (strToInt? p).isNone)) ∧
    parse_target_ids "1,2, ,abc,3" = ([1, 2, 3], ["abc"]) := by
  refine ⟨fun raw => ?_, by decide⟩
  rw [parse_target_ids, parse_foldl]
  simp

/-! ## Broadcast run (C2, C5, C6) -/

lemma countP_add_countP_not (p : Int → Bool) (l : List Int) :
    l.countP p + l.countP (fun a => !p a) = l.length := by
  induction l with
  | nil => simp
  | cons a l ih =>
      by_cases h : p a <;>
        simp [List.countP_cons, h, ← ih] <;> omega

lemma broadcast_foldl (cfg : EnvCfg) (env : BEnv) (smsg : String)
    (hdb : cfg.DATABASE_URL ≠ "") :
    ∀ (ids : List Int) (ok fail : Nat) (db : DBState)
      (sends : List (Int × String)),
      ids.foldl (bstep cfg env smsg) (ok, fail, db, sends)
        = (ok + succCount env smsg ids,
           fail + failCount env smsg ids,
           { db with broadcast_log :=
               db.broadcast_log ++ ids.map (targetRecord env smsg) },
           sends ++ (ids.map (fun i => (process_target env smsg i).1)).flatten) := by
  intro ids
  induction ids with
  | nil => intro ok fail db sends; simp [succCount, failCount]
  | cons i ids ih =>
      intro ok fail db sends
      simp only [List.foldl_cons]
      rcases h : process_target env smsg i with ⟨s, rec, b⟩
      cases b
      · have hstep : bstep cfg env smsg (ok, fail, db, sends) i
            = (ok, fail + 1, log_broadcast cfg db rec, sends ++ s) := by
          simp [bstep, h]
        rw [hstep, ih]
        simp [succCount, failCount, List.countP_cons, h, targetRecord,
          log_broadcast, hdb]
        omega
      · have hstep : bstep cfg env smsg (ok, fail, db, sends) i
            = (ok + 1, fail, log_broadcast cfg db rec, sends ++ s) := by
          simp [bstep, h]
        rw [hstep, ih]
        simp [succCount, failCount, List.countP_cons, h, targetRecord,
          log_broadcast, hdb]
        omega

lemma targetRecord_errOk (env : BEnv) (smsg : String) (i : Int)
    (hent : ∀ j e, env.get_entity j = Except.error e → e ≠ "")
    (hsend : ∀ j m e, env.send_message j m = Except.error e → e ≠ "") :
    recErrOk (targetRecord env smsg i) = true := by
  unfold targetRecord process_target recErrOk
  cases hge : env.get_entity i with
  | error e =>
      have he := hent i e hge
      simp [he]
  | ok ent =>
      cases hs : env.send_message i smsg with
      | ok u => simp
      | error e =>
          have he := hsend i smsg e hs
          simp [he]

/-- C5 — A broadcast run over a non-empty parsed target list (with
credentials, a store and a non-empty start message, against a gateway
whose exception texts are non-empty) processes the targets in list order:
it returns `(total, ok, fail)` with `total` the number of targets and
`total = ok + fail`, appends exactly one log record per target in order
(failure records carrying a non-empty error text), and its send attempts
are the per-target attempts concatenated in order. -/
theorem claim_C5_broadcast_counts_and_log
    (cfg : EnvCfg) (db : DBState) (env : BEnv)
    (h1 : cfg.TG_API_ID ≠ 0) (h2 : cfg.TG_API_HASH ≠ "")
    (h3 : cfg.TG_SESSION ≠ "") (hdb : cfg.DATABASE_URL ≠ "")
    (hmsg : resolvedStartMsg cfg db ≠ "") (hids : resolvedIds cfg db ≠ [])
    (hent : ∀ j e, env.get_entity j = Except.error e → e ≠ "")
    (hsend : ∀ j m e, env.send_message j m = Except.error e → e ≠ "") :
    (run_broadcast_now cfg db env).2.2
      = Except.ok ((resolvedIds cfg db).length,
          succCount env (resolvedStartMsg cfg db) (resolvedIds cfg db),
          failCount env (resolvedStartMsg cfg db) (resolvedIds cfg db)) ∧
    succCount env (resolvedStartMsg cfg db) (resolvedIds cfg db)
        + failCount env (resolvedStartMsg cfg db) (resolvedIds cfg db)
      = (resolvedIds cfg db).length ∧
    (run_broadcast_now cfg db env).1.broadcast_log
      = db.broadcast_log
          ++ (resolvedIds cfg db).map (targetRecord env (resolvedStartMsg cfg db)) ∧
    (run_broadcast_now cfg db env).2.1
      = ((resolvedIds cfg db).map
          (fun i => (process_target env (resolvedStartMsg cfg db) i).1)).flatten ∧
    ((resolvedIds cfg db).map (targetRecord env (resolvedStartMsg cfg db))).all
        recErrOk = true := by
  have hc : ¬(cfg.TG_API_ID = 0 ∨ cfg.TG_API_HASH = "" ∨ cfg.TG_SESSION = "") := by
    simp [h1, h2, h3]
  have hmsg2 : ¬((get_agent_settings cfg db).2 = "") := hmsg
  have hids2 : ¬((parse_target_ids (get_agent_settings cfg db).1).1 = []) := hids
  have hrun : run_broadcast_now cfg db env
      = ((resolvedIds cfg db).foldl
            (bstep cfg env (resolvedStartMsg cfg db))
            (0, 0, db, [])
          |> fun r => (r.2.2.1, r.2.2.2,
              Except.ok ((resolvedIds cfg db).length, r.1, r.2.1))) := by
    rw [run_broadcast_now]
    rw [if_neg hc]
    simp only [if_neg hmsg2, if_neg hids2]
    rfl
  rw [hrun, broadcast_foldl cfg env (resolvedStartMsg cfg db) hdb]
  refine ⟨by simp, ?_, by simp, by simp, ?_⟩
  · exact countP_add_countP_not _ _
  · rw [List.all_eq_true]
    intro r hr
    obtain ⟨i, hi, rfl⟩ := List.mem_map.mp hr
    exact targetRecord_errOk env (resolvedStartMsg cfg db) i hent hsend

/-- Concrete configuration used by broadcast witnesses: all credentials and
a database present. -/
def cfgW : EnvCfg :=
  { TG_API_ID := 1, TG_API_HASH := "h", TG_SESSION := "s",
    OPENAI_API_KEY := "k", TARGET_IDS_RAW := "", START_MESSAGE := "",
    SYSTEM_PROMPT := "P", DATABASE_URL := "d" }

/-- Concrete store used by broadcast witnesses: settings row with targets
`"1,2"` and start message `"hello"`. -/
def dbW : DBState :=
  { ai_prompt_row := none,
    agent_settings_row := some (some "1,2", some "hello"),
    broadcast_log := [] }

/-- Concrete gateway used by broadcast witnesses: lookups succeed, the send
to target 2 raises `"boom"`. -/
def envW : BEnv :=
  { get_entity := fun _ => Except.ok
      { title := some "T", first_name := "", megagroup := false,
        gigagroup := false, broadcast := false },
    send_message := fun i _ =>
      if i = 2 then Except.error "boom" else Except.ok () }

/-- Witness for C5: two targets, the second send fails. -/
theorem claim_C5_witness :
    (run_broadcast_now cfgW dbW envW).2.2
      = Except.ok ((resolvedIds cfgW dbW).length,
          succCount envW (resolvedStartMsg cfgW dbW) (resolvedIds cfgW dbW),
          failCount envW (resolvedStartMsg cfgW dbW) (resolvedIds cfgW dbW)) ∧
    succCount envW (resolvedStartMsg cfgW dbW) (resolvedIds cfgW dbW)
        + failCount envW (resolvedStartMsg cfgW dbW) (resolvedIds cfgW dbW)
      = (resolvedIds cfgW dbW).length ∧
    (run_broadcast_now cfgW dbW envW).1.broadcast_log
      = dbW.broadcast_log
          ++ (resolvedIds cfgW dbW).map (targetRecord envW (resolvedStartMsg cfgW dbW)) ∧
    (run_broadcast_now cfgW dbW envW).2.1
      = ((resolvedIds cfgW dbW).map
          (fun i => (process_target envW (resolvedStartMsg cfgW dbW) i).1)).flatten ∧
    ((resolvedIds cfgW dbW).map (targetRecord envW (resolvedStartMsg cfgW dbW))).all
        recErrOk = true :=
  claim_C5_broadcast_counts_and_log cfgW dbW envW
    (by decide) (by decide) (by decide) (by decide) (by decide) (by decide)
    (by
      intro j e h
      exact Except.noConfusion h)
    (by
      intro j m e h
      simp only [envW] at h
      split at h
      · injection h with h2
        subst h2
        decide
      · exact Except.noConfusion h)

/-- C6 — A broadcast run whose resolved start message is empty or whose
parsed target list is empty leaves the store untouched (zero log records),
attempts zero sends, and reports the failure as a raised error. -/
theorem claim_C6_empty_preconditions
    (cfg : EnvCfg) (db : DBState) (env : BEnv)
    (h : resolvedStartMsg cfg db = "" ∨ resolvedIds cfg db = []) :
    (run_broadcast_now cfg db env).1 = db ∧
    (run_broadcast_now cfg db env).2.1 = [] ∧
    ∃ m, (run_broadcast_now cfg db env).2.2 = Except.error m := by
  rw [run_broadcast_now]
  by_cases hc : cfg.TG_API_ID = 0 ∨ cfg.TG_API_HASH = "" ∨ cfg.TG_SESSION = ""
  · rw [if_pos hc]
    exact ⟨rfl, rfl, _, rfl⟩
  · rw [if_neg hc]
    rcases h with h | h
    · have h2 : (get_agent_settings cfg db).2 = "" := h
      simp only [h2, if_pos rfl]
      exact ⟨rfl, rfl, _, rfl⟩
    · have h2 : (parse_target_ids (get_agent_settings cfg db).1).1 = [] := h
      by_cases hm : (get_agent_settings cfg db).2 = ""
      · simp only [hm, if_pos rfl]
        exact ⟨rfl, rfl, _, rfl⟩
      · simp only [if_neg hm, h2, if_pos rfl]
        exact ⟨rfl, rfl, _, rfl⟩

/-- Witness for C6 at a concrete store whose settings row has targets but
an empty start message. -/
theorem claim_C6_witness :
    (run_broadcast_now cfgW
        { ai_prompt_row := none,
          agent_settings_row := some (some "1,2", some ""),
          broadcast_log := [] } envW).1
      = { ai_prompt_row := none,
          agent_settings_row := some (some "1,2", some ""),
          broadcast_log := [] } ∧
    (run_broadcast_now cfgW
        { ai_prompt_row := none,
          agent_settings_row := some (some "1,2", some ""),
          broadcast_log := [] } envW).2.1 = [] ∧
    ∃ m, (run_broadcast_now cfgW
        { ai_prompt_row := none,
          agent_settings_row := some (some "1,2", some ""),
          broadcast_log := [] } envW).2.2 = Except.error m :=
  claim_C6_empty_preconditions cfgW _ envW (Or.inl (by decide))

/-- Concrete store for the C2 scenario: one broadcast target `5`, start
message `"hello"`. -/
def dbC2 : DBState :=
  { ai_prompt_row := none,
    agent_settings_row := some (some "5", some "hello"),
    broadcast_log := [] }

/-- Concrete gateway for the C2 scenario: every entity lookup raises, every
send would succeed. -/
def envC2 : BEnv :=
  { get_entity := fun _ => Except.error "lookup failed",
    send_message := fun _ _ => Except.ok () }

/-- Counterexample to C2 as stated: when resolving the display metadata of
target `5` fails, the run attempts no send at all for it (the start
message is not sent, refuting "the start message is still sent"), and the
logged record carries kind `"unknown"` but an empty name, not an
`"unknown"` name. -/
theorem claim_C2_cex :
    (run_broadcast_now cfgW dbC2 envC2).2.1 = [] ∧
    (run_broadcast_now cfgW dbC2 envC2).1.broadcast_log
      = [{ chat_id := 5, chat_type := "unknown", chat_name := "",
           message := "hello", success := false,
           error := some "lookup failed" }] ∧
    (run_broadcast_now cfgW dbC2 envC2).2.2 = Except.ok (1, 0, 1) := by
  decide

/-- C2 amended — During a broadcast run, a failure while resolving a
target's display metadata aborts the send attempt for that target: no send
is attempted for it and it is logged as a failure whose record carries
kind `"unknown"`, an empty name and the lookup error text; the run itself
is not aborted — it still appends exactly one record per target and
returns its counts. -/
theorem claim_C2_amended
    (cfg : EnvCfg) (db : DBState) (env : BEnv)
    (h1 : cfg.TG_API_ID ≠ 0) (h2 : cfg.TG_API_HASH ≠ "")
    (h3 : cfg.TG_SESSION ≠ "") (hdb : cfg.DATABASE_URL ≠ "")
    (hmsg : resolvedStartMsg cfg db ≠ "") (hids : resolvedIds cfg db ≠ [])
    (t : Int) (e : String) (_ht : t ∈ resolvedIds cfg db)
    (hent : env.get_entity t = Except.error e) :
    process_target env (resolvedStartMsg cfg db) t
      = ([], { chat_id := t, chat_type := "unknown", chat_name := "",
               message := resolvedStartMsg cfg db, success := false,
               error := some e }, false) ∧
    (run_broadcast_now cfg db env).1.broadcast_log
      = db.broadcast_log
          ++ (resolvedIds cfg db).map (targetRecord env (resolvedStartMsg cfg db)) ∧
    ∃ ok fail, (run_broadcast_now cfg db env).2.2
      = Except.ok ((resolvedIds cfg db).length, ok, fail) := by
  have hc : ¬(cfg.TG_API_ID = 0 ∨ cfg.TG_API_HASH = "" ∨ cfg.TG_SESSION = "") := by
    simp [h1, h2, h3]
  have hmsg2 : ¬((get_agent_settings cfg db).2 = "") := hmsg
  have hids2 : ¬((parse_target_ids (get_agent_settings cfg db).1).1 = []) := hids
  have hrun : run_broadcast_now cfg db env
      = ((resolvedIds cfg db).foldl
            (bstep cfg env (resolvedStartMsg cfg db))
            (0, 0, db, [])
          |> fun r => (r.2.2.1, r.2.2.2,
              Except.ok ((resolvedIds cfg db).length, r.1, r.2.1))) := by
    rw [run_broadcast_now]
    rw [if_neg hc]
    simp only [if_neg hmsg2, if_neg hids2]
    rfl
  refine ⟨?_, ?_, ?_⟩
  · rw [process_target, hent]
    simp [pyOrS]
  · rw [hrun, broadcast_foldl cfg env (resolvedStartMsg cfg db) hdb]
  · rw [hrun, broadcast_foldl cfg env (resolvedStartMsg cfg db) hdb]
    exact ⟨_, _, rfl⟩

/-- Witness for the amended C2 at the concrete lookup-failing gateway. -/
theorem claim_C2_amended_witness :
    process_target envC2 (resolvedStartMsg cfgW dbC2) 5
      = ([], { chat_id := 5, chat_type := "unknown", chat_name := "",
               message := resolvedStartMsg cfgW dbC2, success := false,
               error := some "lookup failed" }, false) ∧
    (run_broadcast_now cfgW dbC2 envC2).1.broadcast_log
      = dbC2.broadcast_log
          ++ (resolvedIds cfgW dbC2).map
              (targetRecord envC2 (resolvedStartMsg cfgW dbC2)) ∧
    ∃ ok fail, (run_broadcast_now cfgW dbC2 envC2).2.2
      = Except.ok ((resolvedIds cfgW dbC2).length, ok, fail) :=
  claim_C2_amended cfgW dbC2 envC2
    (by decide) (by decide) (by decide) (by decide) (by decide) (by decide)
    5 "lookup failed" (by decide) (by decide)

/-! ## Configuration resolution (C8), startup (C9), prompt edit (C10) -/

lemma pyOrStr_getD (a : Option String) : pyOrStr a "" = a.getD "" := by
  cases a with
  | none => rfl
  | some s => by_cases hs : s = "" <;> simp [pyOrStr, pyOrS, hs]

/-- Counterexample to C8 as stated: with a reachable store whose
`ai_prompt` row holds the persisted value `""`, the resolved system
instructions are the static default `"P"`, not the persisted value; so a
persisted value is not always returned. -/
theorem claim_C8_cex :
    ({ ai_prompt_row := some "", agent_settings_row := none,
       broadcast_log := [] } : DBState).ai_prompt_row = some "" ∧
    resolved_system_prompt
      { TG_API_ID := 1, TG_API_HASH := "h", TG_SESSION := "s",
        OPENAI_API_KEY := "k", TARGET_IDS_RAW := "42", START_MESSAGE := "",
        SYSTEM_PROMPT := "P", DATABASE_URL := "d" }
      { ai_prompt_row := some "", agent_settings_row := none,
        broadcast_log := [] } = "P" ∧
    ("P" : String) ≠ "" := by
  decide

/-- C8 amended — Reads of the system instructions and broadcast settings
resolve as follows: with no reachable store every read yields the static
defaults; with a store, a non-empty persisted instructions value is
returned while a missing row or an empty persisted value falls back to the
static default; for the broadcast settings, a missing row falls back to
the static defaults, while an existing row is returned field-wise with a
NULL field coerced to the empty string (not to the static default). -/
theorem claim_C8_amended (cfg : EnvCfg) (db : DBState) :
    (cfg.DATABASE_URL = "" →
        resolved_system_prompt cfg db = cfg.SYSTEM_PROMPT ∧
        get_agent_settings cfg db = (cfg.TARGET_IDS_RAW, cfg.START_MESSAGE)) ∧
    (∀ s : String, cfg.DATABASE_URL ≠ "" → db.ai_prompt_row = some s → s ≠ "" →
        resolved_system_prompt cfg db = s) ∧
    (cfg.DATABASE_URL ≠ "" →
        (db.ai_prompt_row = none ∨ db.ai_prompt_row = some "") →
        resolved_system_prompt cfg db = cfg.SYSTEM_PROMPT) ∧
    (∀ a b : Option String, cfg.DATABASE_URL ≠ "" →
        db.agent_settings_row = some (a, b) →
        get_agent_settings cfg db = (a.getD "", b.getD "")) ∧
    (cfg.DATABASE_URL ≠ "" → db.agent_settings_row = none →
        get_agent_settings cfg db = (cfg.TARGET_IDS_RAW, cfg.START_MESSAGE)) := by
  refine ⟨?_, ?_, ?_, ?_, ?_⟩
  · intro h
    constructor
    · simp [resolved_system_prompt, get_prompt_from_db, h, pyOrStr]
    · simp [get_agent_settings, h]
  · intro s h hs hne
    simp [resolved_system_prompt, get_prompt_from_db, h, hs, pyOrStr, pyOrS, hne]
  · intro h hrow
    rcases hrow with hrow | hrow <;>
      simp [resolved_system_prompt, get_prompt_from_db, h, hrow, pyOrStr, pyOrS]
  · intro a b h hrow
    have hg : get_agent_settings cfg db = (pyOrStr a "", pyOrStr b "") := by
      rw [get_agent_settings, if_neg h, hrow]
    rw [hg, pyOrStr_getD, pyOrStr_getD]
  · intro h hrow
    rw [get_agent_settings, if_neg h, hrow]

/-- Concrete configuration with a reachable store (C8 witness). -/
def cfgC8 : EnvCfg :=
  { TG_API_ID := 1, TG_API_HASH := "h", TG_SESSION := "s",
    OPENAI_API_KEY := "k", TARGET_IDS_RAW := "42", START_MESSAGE := "m",
    SYSTEM_PROMPT := "P", DATABASE_URL := "d" }

/-- The same configuration without a reachable store (C8 witness). -/
def cfgC8nodb : EnvCfg :=
  { TG_API_ID := 1, TG_API_HASH := "h", TG_SESSION := "s",
    OPENAI_API_KEY := "k", TARGET_IDS_RAW := "42", START_MESSAGE := "m",
    SYSTEM_PROMPT := "P", DATABASE_URL := "" }

/-- Store with a non-empty persisted prompt and a settings row whose
target-list field is NULL (C8 witness). -/
def dbC8x : DBState :=
  { ai_prompt_row := some "X",
    agent_settings_row := some (none, some "start"),
    broadcast_log := [] }

/-- Store with no rows at all (C8 witness). -/
def dbC8none : DBState :=
  { ai_prompt_row := none, agent_settings_row := none, broadcast_log := [] }

/-- Witness for the amended C8, exercising all five resolution branches. -/
theorem claim_C8_amended_witness :
    (resolved_system_prompt cfgC8nodb dbC8x = cfgC8nodb.SYSTEM_PROMPT ∧
     get_agent_settings cfgC8nodb dbC8x
       = (cfgC8nodb.TARGET_IDS_RAW, cfgC8nodb.START_MESSAGE)) ∧
    resolved_system_prompt cfgC8 dbC8x = "X" ∧
    resolved_system_prompt cfgC8 dbC8none = cfgC8.SYSTEM_PROMPT ∧
    get_agent_settings cfgC8 dbC8x
      = ((none : Option String).getD "", (some "start" : Option String).getD "") ∧
    get_agent_settings cfgC8 dbC8none
      = (cfgC8.TARGET_IDS_RAW, cfgC8.START_MESSAGE) :=
  ⟨(claim_C8_amended cfgC8nodb dbC8x).1 rfl,
   (claim_C8_amended cfgC8 dbC8x).2.1 "X" (by decide) rfl (by decide),
   (claim_C8_amended cfgC8 dbC8none).2.2.1 (by decide) (Or.inl rfl),
   (claim_C8_amended cfgC8 dbC8x).2.2.2.1 none (some "start") (by decide) rfl,
   (claim_C8_amended cfgC8 dbC8none).2.2.2.2 (by decide) rfl⟩

/-- Counterexample to C9 as stated: two startups missing different
credentials (only the completion-service key vs. only the connection id)
produce the identical fixed error, so the report does not identify which
credentials are missing. -/
theorem claim_C9_cex :
    app_main
        { TG_API_ID := 1, TG_API_HASH := "h", TG_SESSION := "s",
          OPENAI_API_KEY := "", TARGET_IDS_RAW := "", START_MESSAGE := "",
          SYSTEM_PROMPT := "P", DATABASE_URL := "" }
      = app_main
        { TG_API_ID := 0, TG_API_HASH := "h", TG_SESSION := "s",
          OPENAI_API_KEY := "k", TARGET_IDS_RAW := "", START_MESSAGE := "",
          SYSTEM_PROMPT := "P", DATABASE_URL := "" } ∧
    (1 : Nat) ≠ 0 ∧ ("" : String) = "" ∧ (0 : Nat) = 0 ∧ ("k" : String) ≠ "" := by
  decide

/-- C9 amended — If any mandatory credential is absent the process refuses
to begin serving, raising a fixed error that names the four candidate
credentials (but does not say which subset is missing); with all four
present it begins serving. -/
theorem claim_C9_amended (cfg : EnvCfg) (h : REQUIRED_OK cfg = false) :
    app_main cfg
      = Except.error "Не заданы TG_API_ID, TG_API_HASH, TG_SESSION или OPENAI_API_KEY. Заполни их в переменных окружения (локально или на Heroku)." ∧
    app_main cfg ≠ Except.ok () := by
  rw [app_main, if_pos h]
  exact ⟨rfl, by simp⟩

/-- Witness for the amended C9 with every credential absent. -/
theorem claim_C9_amended_witness :
    app_main
        { TG_API_ID := 0, TG_API_HASH := "", TG_SESSION := "",
          OPENAI_API_KEY := "", TARGET_IDS_RAW := "", START_MESSAGE := "",
          SYSTEM_PROMPT := "", DATABASE_URL := "" }
      = Except.error "Не заданы TG_API_ID, TG_API_HASH, TG_SESSION или OPENAI_API_KEY. Заполни их в переменных окружения (локально или на Heroku)." ∧
    app_main
        { TG_API_ID := 0, TG_API_HASH := "", TG_SESSION := "",
          OPENAI_API_KEY := "", TARGET_IDS_RAW := "", START_MESSAGE := "",
          SYSTEM_PROMPT := "", DATABASE_URL := "" }
      ≠ Except.ok () :=
  claim_C9_amended _ (by decide)

/-- Counterexample to C10 as stated: when the `SYSTEM_PROMPT` environment
override is itself the empty string, a whitespace-only admin submission
persists the empty string as the system instructions, so an admin edit can
make them empty. -/
theorem claim_C10_cex :
    (edit_prompt_post
        { TG_API_ID := 1, TG_API_HASH := "h", TG_SESSION := "s",
          OPENAI_API_KEY := "k", TARGET_IDS_RAW := "", START_MESSAGE := "",
          SYSTEM_PROMPT := "", DATABASE_URL := "d" }
        { ai_prompt_row := some "old", agent_settings_row := none,
          broadcast_log := [] }
        "   ").1.ai_prompt_row = some "" ∧
    (edit_prompt_post
        { TG_API_ID := 1, TG_API_HASH := "h", TG_SESSION := "s",
          OPENAI_API_KEY := "k", TARGET_IDS_RAW := "", START_MESSAGE := "",
          SYSTEM_PROMPT := "", DATABASE_URL := "d" }
        { ai_prompt_row := some "old", agent_settings_row := none,
          broadcast_log := [] }
        "   ").2 = true := by
  decide

/-- C10 amended — An admin prompt edit whose submitted text strips to the
empty string stores the configured `SYSTEM_PROMPT` default instead of the
empty string; hence whenever that default is non-empty (in particular for
the built-in persona default), such an edit cannot persist empty system
instructions. -/
theorem claim_C10_amended (cfg : EnvCfg) (db : DBState) (content : String)
    (h : pyStrip content = "") (hdb : cfg.DATABASE_URL ≠ "") :
    (edit_prompt_post cfg db content).1.ai_prompt_row = some cfg.SYSTEM_PROMPT ∧
    (cfg.SYSTEM_PROMPT ≠ "" →
      (edit_prompt_post cfg db content).1.ai_prompt_row ≠ some "") := by
  have hmain : (edit_prompt_post cfg db content).1.ai_prompt_row
      = some cfg.SYSTEM_PROMPT := by
    rw [edit_prompt_post, h]
    rw [set_prompt_in_db, if_neg hdb]
    simp [pyOrS]
  refine ⟨hmain, fun hne => ?_⟩
  rw [hmain]
  simp [hne]

/-- Witness for the amended C10 with a non-empty configured default. -/
theorem claim_C10_amended_witness :
    (edit_prompt_post cfgC8 dbC8none "   ").1.ai_prompt_row
      = some cfgC8.SYSTEM_PROMPT ∧
    (cfgC8.SYSTEM_PROMPT ≠ "" →
      (edit_prompt_post cfgC8 dbC8none "   ").1.ai_prompt_row ≠ some "") :=
  claim_C10_amended cfgC8 dbC8none "   " (by decide) (by decide)
